import Mathlib

set_option maxRecDepth 4000

/-
  Shallow embedding of the smartJobFinder backend core
  (app/routes/matching.py, app/utils/security.py, app/routes/auth.py,
  app/routes/jobs.py), together with proofs about it.
-/

namespace SJF

/- ### Python string helpers

Python strings are modelled as Lean `String`s; `str.lower()` is modelled by
ASCII lowercasing (`Char.toLower`), which agrees with Python on all ASCII
input.  `needle in haystack` (substring containment, with the empty string
contained in everything, as in Python) is `pySubstr`. -/

def pyLower (s : String) : String := String.mk (s.toList.map Char.toLower)

def startsCh : List Char → List Char → Bool
  | [], _ => true
  | _ :: _, [] => false
  | a :: as, b :: bs => a == b && startsCh as bs

def containsCh (needle : List Char) : List Char → Bool
  | [] => needle.isEmpty
  | b :: bs => startsCh needle (b :: bs) || containsCh needle bs

def pySubstr (needle hay : String) : Bool := containsCh needle.toList hay.toList

/- ### Python `round(x, 1)`

CPython rounds half to even.  We model the arithmetic over `ℚ`
(the float result and the rational result agree at every value appearing in
this development, none of which is a tie). -/

def roundHalfEven (x : ℚ) : ℤ :=
  if x - ⌊x⌋ < 1/2 then ⌊x⌋
  else if 1/2 < x - ⌊x⌋ then ⌊x⌋ + 1
  else if ⌊x⌋ % 2 = 0 then ⌊x⌋ else ⌊x⌋ + 1

def pyRound1 (x : ℚ) : ℚ := (roundHalfEven (x * 10) : ℚ) / 10

namespace Matching

/- Data as read by app/routes/matching.py from the profile and job documents:
`profile.get("skills", [])`, `profile.get("experience", "")`,
`profile.get("location", "")`, `job.get("skills", [])`,
`str(job.get("experience_level", ""))`, `job.get("location", "")`. -/

structure Profile where
  skills : List String
  experience : String
  location : String
deriving DecidableEq

structure Job where
  skills : List String
  experience_level : String
  location : String
deriving DecidableEq

structure Breakdown where
  skill_score : ℚ
  experience_score : ℕ
  location_score : ℕ
deriving DecidableEq

/- The JSON body returned by the endpoint.  Keys that some return paths omit
(`reason`, `missing_skills`, `breakdown`) are `Option`s, `none` meaning the
key is absent from the response dict. -/
structure MatchResult where
  match_score : ℚ
  reason : Option String
  matched_skills : Finset String
  missing_skills : Option (Finset String)
  total_job_skills : ℕ
  matched_count : ℕ
  experience_match : Bool
  location_match : Bool
  breakdown : Option Breakdown
deriving DecidableEq

/- matching.py lines 45-54: profile not found. -/
def noProfileResult : MatchResult :=
  { match_score := 0
    reason := some "No profile found. Please complete your profile."
    matched_skills := ∅
    missing_skills := none
    total_job_skills := 0
    matched_count := 0
    experience_match := false
    location_match := false
    breakdown := none }

/- matching.py lines 69-78: job has no declared skills. -/
def noSkillsResult : MatchResult :=
  { match_score := 50
    reason := some "No skills specified for this job"
    matched_skills := ∅
    missing_skills := none
    total_job_skills := 0
    matched_count := 0
    experience_match := false
    location_match := false
    breakdown := none }

/- matching.py lines 84-89: experience component (an int, 0 or 20).
Python truthiness of a string is non-emptiness. -/
def expComponent (profile : Profile) (job : Job) : ℕ :=
  let user_exp := pyLower profile.experience
  let job_exp := pyLower job.experience_level
  if user_exp ≠ "" ∧ job_exp ≠ "" ∧ user_exp = job_exp then 20 else 0

/- matching.py lines 92-97: location component (an int, 0 or 10). -/
def locComponent (profile : Profile) (job : Job) : ℕ :=
  let user_location := pyLower profile.location
  let job_location := pyLower job.location
  if user_location ≠ "" ∧ job_location ≠ "" ∧ pySubstr user_location job_location = true
  then 10 else 0

/- matching.py line 81: `(len(matched) / len(job_skills)) * 100 if job_skills else 0`. -/
def skillMatchPct (profile : Profile) (job : Job) : ℚ :=
  let user_skills := profile.skills.toFinset
  let job_skills := job.skills.toFinset
  if job_skills ≠ ∅
  then ((user_skills ∩ job_skills).card : ℚ) / (job_skills.card : ℚ) * 100
  else 0

/- matching.py lines 66-118: the body after user and job were found. -/
def scoreJob (profile : Profile) (job : Job) : MatchResult :=
  let user_skills := profile.skills.toFinset
  let job_skills := job.skills.toFinset
  if job_skills = ∅ then noSkillsResult
  else
    let matched := user_skills ∩ job_skills
    let skill_match_percentage := skillMatchPct profile job
    let experience_match := expComponent profile job
    let location_match := locComponent profile job
    let total_score : ℚ :=
      min (skill_match_percentage * (7/10) + experience_match + location_match) 100
    { match_score := pyRound1 total_score
      reason := none
      matched_skills := matched
      missing_skills := some (job_skills \ user_skills)
      total_job_skills := job_skills.card
      matched_count := matched.card
      experience_match := decide (0 < experience_match)
      location_match := decide (0 < location_match)
      breakdown := some
        { skill_score := pyRound1 (skill_match_percentage * (7/10))
          experience_score := experience_match
          location_score := location_match } }

/- matching.py lines 44-118: the returned match result as a function of the
(possibly absent) profile and the found job; the earlier branches of the
handler (invalid token, user or job not found) raise and return no result. -/
def calculate_job_match_score : Option Profile → Job → MatchResult
  | none, _ => noProfileResult
  | some profile, job => scoreJob profile job

/- Concrete inputs used by the spec example and the counterexamples. -/

def exProfile : Profile := { skills := ["python", "sql"], experience := "junior", location := "lahore" }

def exJob : Job := { skills := ["python", "react", "sql"], experience_level := "senior", location := "berlin" }

def c4Profile : Profile := { skills := ["python"], experience := "senior", location := "lahore" }

def c4Job : Job := { skills := [], experience_level := "senior", location := "lahore" }

def c5Profile : Profile := { skills := ["python"], experience := "", location := "" }

def c5Job : Job := { skills := ["python"], experience_level := "", location := "Berlin" }

end Matching

namespace Security

/- ### app/utils/security.py — password functions

Python strings are modelled here as `List Char` (so that the slice `p[:72]`
is `List.take 72` and `len(p.encode("utf-8"))` is the length of the UTF-8
byte encoding). -/

/- The UTF-8 encoding of one code point, as a list of byte values. -/
def utf8EncodeChar (c : Char) : List ℕ :=
  if c.toNat < 128 then [c.toNat]
  else if c.toNat < 2048 then
    [192 + c.toNat / 64, 128 + c.toNat % 64]
  else if c.toNat < 65536 then
    [224 + c.toNat / 4096, 128 + (c.toNat / 64) % 64, 128 + c.toNat % 64]
  else
    [240 + c.toNat / 262144, 128 + (c.toNat / 4096) % 64,
      128 + (c.toNat / 64) % 64, 128 + c.toNat % 64]

def utf8Bytes (s : List Char) : List ℕ := (s.map utf8EncodeChar).flatten

/- security.py lines 37-38 and 48-49:
`if len(p.encode("utf-8")) > 72: p = p[:72]` — note the slice truncates to
72 characters (the byte length only gates whether the slice happens). -/
def pyTruncate72 (p : List Char) : List Char :=
  if 72 < (utf8Bytes p).length then p.take 72 else p

/- Model of the bcrypt backend reached through passlib's CryptContext:
bcrypt derives its key from at most the first 72 bytes of the UTF-8 encoding
of the password (passlib truncates to that limit before calling the
backend), and verification of an ideal (collision-free) digest succeeds
exactly when the derived keys agree.  The salt models the per-call
non-determinism of hashing; it does not enter the key comparison. -/
def bcryptKey (password : List Char) : List ℕ := (utf8Bytes password).take 72

structure Digest where
  salt : ℕ
  key : List ℕ
deriving DecidableEq

def bcryptHash (salt : ℕ) (password : List Char) : Digest :=
  { salt := salt, key := bcryptKey password }

def bcryptVerify (password : List Char) (d : Digest) : Bool :=
  bcryptKey password == d.key

/- security.py lines 45-53. -/
def get_password_hash (salt : ℕ) (password : List Char) : Digest :=
  bcryptHash salt (pyTruncate72 password)

/- security.py lines 34-42 (the `except` branch returning `False` is
unreachable in the model: no operation here throws). -/
def verify_password (plain_password : List Char) (hashed_password : Digest) : Bool :=
  bcryptVerify (pyTruncate72 plain_password) hashed_password

end Security

namespace Token

/- ### app/utils/security.py — JWT functions

Time is in seconds since the epoch; `now` is passed explicitly, and the two
`datetime.utcnow()` calls in `create_access_token` happen at the same
instant in this timeless model.  A token is its signed claim set together
with the secret that signed it. -/

structure TokenData where
  sub : String
  role : Option String
  type : Option String
deriving DecidableEq

structure Payload where
  sub : String
  role : Option String
  exp : ℤ
  iat : ℤ
  type : String
deriving DecidableEq

structure Jwt where
  payload : Payload
  sig : String
deriving DecidableEq

/- security.py lines 58-76.  `ttlMinutes` is the configured
ACCESS_TOKEN_EXPIRE_MINUTES. -/
def create_access_token (ttlMinutes : ℕ) (secret : String) (now : ℤ)
    (data : TokenData) (remember_me : Bool) : Jwt :=
  let expire : ℤ := if remember_me then now + 7 * 86400 else now + ttlMinutes * 60
  { payload :=
      { sub := data.sub
        role := data.role
        exp := expire
        iat := now
        type := data.type.getD "access" }
    sig := secret }

/- security.py lines 79-86: jose's jwt.decode checks the signature and
rejects tokens whose exp is not in the future; any failure yields None. -/
def decode_token (secret : String) (now : ℤ) (t : Jwt) : Option Payload :=
  if t.sig = secret ∧ now < t.payload.exp then some t.payload else none

end Token

structure HttpError where
  status : ℕ
  detail : String
deriving DecidableEq

def errStatus {α : Type} : Except HttpError α → Option ℕ
  | Except.error e => some e.status
  | Except.ok _ => none

namespace Auth

/- ### app/routes/auth.py over an explicit users collection

The users collection is a list of documents; `find_one` is `List.find?`,
`insert_one` appends, `update_one` by `_id` rewrites the documents with that
id (ids are Mongo `_id`s, unique in practice). -/

structure UserDoc where
  id : ℕ
  email : String
  full_name : String
  password_hash : Security.Digest
  role : String
  is_active : Bool
  is_verified : Bool
  has_cv : Bool
  profile_completed : Bool
  created_at : ℤ
  updated_at : ℤ
  last_login : Option ℤ
deriving DecidableEq

structure Config where
  SECRET_KEY : String
  ACCESS_TOKEN_EXPIRE_MINUTES : ℕ
  ADMIN_REGISTRATION_CODE : String
deriving DecidableEq

/- auth.py lines 30-39. -/
structure UserOut where
  id : String
  email : String
  full_name : String
  role : String
  has_cv : Bool
  profile_completed : Bool
  created_at : ℤ
deriving DecidableEq

def user_helper (u : UserDoc) : UserOut :=
  { id := toString u.id
    email := u.email
    full_name := u.full_name
    role := u.role
    has_cv := u.has_cv
    profile_completed := u.profile_completed
    created_at := u.created_at }

structure UserRegister where
  full_name : String
  email : String
  password : List Char
  is_admin : Bool
  admin_code : Option String
deriving DecidableEq

structure TokenResponse where
  access_token : Token.Jwt
  token_type : String
  user : UserOut
  message : String
deriving DecidableEq

/- auth.py lines 41-112.  `salt` models bcrypt's random salt and `newId` the
`_id` Mongo assigns on insert. -/
def register (cfg : Config) (db : List UserDoc) (user_data : UserRegister)
    (now : ℤ) (salt newId : ℕ) : Except HttpError TokenResponse × List UserDoc :=
  if (db.find? (fun u => u.email == user_data.email)).isSome then
    (Except.error { status := 400, detail := "Email already registered" }, db)
  else
    let role := if user_data.is_admin then "admin" else "job_seeker"
    if user_data.is_admin ∧ user_data.admin_code ≠ some cfg.ADMIN_REGISTRATION_CODE then
      (Except.error { status := 400, detail := "Invalid admin registration code" }, db)
    else
      let hashed_password := Security.get_password_hash salt user_data.password
      let user_doc : UserDoc :=
        { id := newId
          email := user_data.email
          full_name := user_data.full_name
          password_hash := hashed_password
          role := role
          is_active := true
          is_verified := false
          has_cv := false
          profile_completed := false
          created_at := now
          updated_at := now
          last_login := none }
      let db1 := db ++ [user_doc]
      match db1.find? (fun u => u.id == newId) with
      | none => (Except.error { status := 500, detail := "Failed to create user" }, db1)
      | some created_user =>
        let access_token := Token.create_access_token cfg.ACCESS_TOKEN_EXPIRE_MINUTES
          cfg.SECRET_KEY now { sub := user_data.email, role := some role, type := none } false
        let message := if user_data.is_admin then "Admin account created successfully!"
          else "Account created successfully!"
        (Except.ok
          { access_token := access_token
            token_type := "bearer"
            user := user_helper created_user
            message := message }, db1)

structure ForgotResponse where
  message : String
  email : String
deriving DecidableEq

structure EmailTask where
  to_email : String
  reset_token : Token.Jwt
  user_name : String
deriving DecidableEq

/- auth.py lines 175-206: the HTTP response is always the same generic
message; when the user exists a reset email is queued as a background task
(second component). -/
def forgot_password (cfg : Config) (db : List UserDoc) (email : String)
    (now : ℤ) : ForgotResponse × List EmailTask :=
  match db.find? (fun u => u.email == email) with
  | some user =>
    let reset_token := Token.create_access_token cfg.ACCESS_TOKEN_EXPIRE_MINUTES
      cfg.SECRET_KEY now { sub := user.email, role := none, type := some "password_reset" } false
    ({ message := "If your email is registered, you will receive a reset link", email := email },
      [{ to_email := user.email, reset_token := reset_token, user_name := user.full_name }])
  | none =>
    ({ message := "If your email is registered, you will receive a reset link", email := email },
      [])

structure ResetPasswordRequest where
  token : Token.Jwt
  new_password : List Char
deriving DecidableEq

/- auth.py lines 208-260. -/
def reset_password (cfg : Config) (db : List UserDoc) (request : ResetPasswordRequest)
    (now : ℤ) (salt : ℕ) : Except HttpError String × List UserDoc :=
  match Token.decode_token cfg.SECRET_KEY now request.token with
  | none => (Except.error { status := 400, detail := "Invalid or expired token" }, db)
  | some payload =>
    if payload.sub = "" then
      (Except.error { status := 400, detail := "Invalid token" }, db)
    else if ¬ (payload.type = "password_reset" ∨ payload.type = "access") then
      (Except.error { status := 400, detail := "Invalid token type for password reset" }, db)
    else
      match db.find? (fun u => u.email == payload.sub) with
      | none => (Except.error { status := 404, detail := "User not found" }, db)
      | some user =>
        let hashed_password := Security.get_password_hash salt request.new_password
        let db1 := db.map (fun u =>
          if u.id = user.id then
            { u with password_hash := hashed_password, updated_at := now }
          else u)
        (Except.ok "Password reset successfully", db1)

/- A concrete user document used by the witnesses. -/
def sampleUser : UserDoc :=
  { id := 1, email := "bob@mail.com", full_name := "Bob", password_hash := ⟨0, []⟩
    role := "job_seeker", is_active := true, is_verified := false, has_cv := false
    profile_completed := false, created_at := 0, updated_at := 0, last_login := none }

end Auth

namespace Jobs

/- ### app/routes/jobs.py over an explicit jobs collection

Both `update_job` and `delete_job` are modelled from the point where the
caller is an authenticated admin/moderator (role check passed), the admin
user document was resolved to `adminId = str(admin_user["_id"])`, and the
path parameter parsed as a valid ObjectId `jobId`. -/

structure JobDoc where
  id : ℕ
  title : String
  company : String
  location : String
  type : String
  salary : Option String
  description : String
  requirements : String
  benefits : Option String
  skills : List String
  status : String
  experience_level : Option String
  application_deadline : Option ℤ
  posted_by : String
  posted_by_email : String
  posted_by_name : String
  posted_date : ℤ
  applications_count : ℕ
  created_at : ℤ
  updated_at : ℤ
deriving DecidableEq

structure JobUpdate where
  title : Option String
  company : Option String
  location : Option String
  type : Option String
  salary : Option String
  description : Option String
  requirements : Option String
  benefits : Option String
  skills : Option (List String)
  status : Option String
  experience_level : Option String
  application_deadline : Option ℤ
deriving DecidableEq

/- `$set` of `job_data.dict(exclude_none=True)` plus `updated_at = now`. -/
def applyJobUpdate (upd : JobUpdate) (now : ℤ) (j : JobDoc) : JobDoc :=
  { j with
    title := upd.title.getD j.title
    company := upd.company.getD j.company
    location := upd.location.getD j.location
    type := upd.type.getD j.type
    salary := (upd.salary.map some).getD j.salary
    description := upd.description.getD j.description
    requirements := upd.requirements.getD j.requirements
    benefits := (upd.benefits.map some).getD j.benefits
    skills := upd.skills.getD j.skills
    status := upd.status.getD j.status
    experience_level := (upd.experience_level.map some).getD j.experience_level
    application_deadline := (upd.application_deadline.map some).getD j.application_deadline
    updated_at := now }

/- jobs.py lines 215-279, from the ownership lookup on. -/
def update_job (db : List JobDoc) (adminId : String) (jobId : ℕ)
    (job_data : JobUpdate) (now : ℤ) : Except HttpError JobDoc × List JobDoc :=
  match db.find? (fun j => j.id == jobId && j.posted_by == adminId) with
  | none =>
    (Except.error
      { status := 404
        detail := "Job not found or you don\u0027t have permission to edit this job" }, db)
  | some _ =>
    let db1 := db.map (fun j => if j.id = jobId then applyJobUpdate job_data now j else j)
    match db1.find? (fun j => j.id == jobId) with
    | none => (Except.error { status := 500, detail := "Internal Server Error" }, db1)
    | some updated_job => (Except.ok updated_job, db1)

/- jobs.py lines 384-445, from the ownership lookup on. -/
def delete_job (db : List JobDoc) (adminId : String) (jobId : ℕ) :
    Except HttpError String × List JobDoc :=
  match db.find? (fun j => j.id == jobId && j.posted_by == adminId) with
  | none =>
    (Except.error
      { status := 404
        detail := "Job not found or you don\u0027t have permission to delete this job" }, db)
  | some _ =>
    (Except.ok "Job deleted successfully", db.filter (fun j => !(j.id == jobId)))

/- A concrete job document used by the witnesses. -/
def sampleJob : JobDoc :=
  { id := 1, title := "Backend Engineer", company := "Acme", location := "Lahore"
    type := "Full-Time", salary := none, description := "APIs", requirements := "Python"
    benefits := none, skills := ["python"], status := "active"
    experience_level := some "mid", application_deadline := none
    posted_by := "adminA", posted_by_email := "a@acme.com", posted_by_name := "Admin A"
    posted_date := 0, applications_count := 0, created_at := 0, updated_at := 0 }

def emptyUpdate : JobUpdate :=
  { title := none, company := none, location := none, type := none, salary := none
    description := none, requirements := none, benefits := none, skills := none
    status := none, experience_level := none, application_deadline := none }

end Jobs

end SJF


namespace SJF

/- ### Helper lemmas about rounding and the skill percentage -/

theorem roundHalfEven_nonneg (x : ℚ) (hx : 0 ≤ x) : 0 ≤ roundHalfEven x := by
  have h0 : (0 : ℤ) ≤ ⌊x⌋ := Int.floor_nonneg.mpr hx
  unfold roundHalfEven
  split_ifs <;> omega

theorem roundHalfEven_le (n : ℤ) (x : ℚ) (hx : x ≤ n) : roundHalfEven x ≤ n := by
  have hfl : ⌊x⌋ ≤ n := by
    have h := Int.floor_le_floor (α := ℚ) hx
    simpa using h
  have hlt : 1/2 ≤ x - ⌊x⌋ → ⌊x⌋ < n := by
    intro h
    by_contra hcon
    push_neg at hcon
    have h1 : ⌊x⌋ = n := le_antisymm hfl hcon
    have h2 : x ≤ (⌊x⌋ : ℚ) := by rw [h1]; exact_mod_cast hx
    linarith
  unfold roundHalfEven
  split_ifs with h1 h2 h3
  · exact hfl
  · have := hlt h2.le; omega
  · exact hfl
  · push_neg at h1
    have := hlt h1; omega

theorem pyRound1_nonneg (x : ℚ) (hx : 0 ≤ x) : 0 ≤ pyRound1 x := by
  unfold pyRound1
  have h := roundHalfEven_nonneg (x * 10) (by linarith)
  have h2 : (0 : ℚ) ≤ (roundHalfEven (x * 10) : ℚ) := by exact_mod_cast h
  linarith

theorem pyRound1_le_100 (x : ℚ) (hx : x ≤ 100) : pyRound1 x ≤ 100 := by
  unfold pyRound1
  have h := roundHalfEven_le 1000 (x * 10) (by push_cast; linarith)
  have h2 : (roundHalfEven (x * 10) : ℚ) ≤ 1000 := by exact_mod_cast h
  linarith

theorem skillMatchPct_nonneg (p : Matching.Profile) (j : Matching.Job) :
    0 ≤ Matching.skillMatchPct p j := by
  simp only [Matching.skillMatchPct]
  split_ifs
  · positivity
  · exact le_refl 0

theorem skillMatchPct_ex : Matching.skillMatchPct Matching.exProfile Matching.exJob = 200/3 := by
  have hne : Matching.exJob.skills.toFinset ≠ ∅ := by decide
  have hc : (Matching.exProfile.skills.toFinset ∩ Matching.exJob.skills.toFinset).card = 2 := by
    decide
  have hd : Matching.exJob.skills.toFinset.card = 3 := by decide
  simp only [Matching.skillMatchPct, hne, if_pos, ne_eq, not_false_eq_true, hc, hd]
  norm_num

end SJF

namespace SJF

/- ### Claim theorems: Match Scorer -/

/-- C9: on every return path of the match-score computation (no profile,
empty job skills and the general formula) the returned match_score lies in
the closed interval [0, 100], for every profile and job. -/
theorem C9_score_in_unit_interval (op : Option Matching.Profile) (j : Matching.Job) :
    0 ≤ (Matching.calculate_job_match_score op j).match_score ∧
    (Matching.calculate_job_match_score op j).match_score ≤ 100 := by
  cases op with
  | none =>
    constructor <;> norm_num [Matching.calculate_job_match_score, Matching.noProfileResult]
  | some p =>
    by_cases hj : j.skills.toFinset = ∅
    · have h : Matching.calculate_job_match_score (some p) j = Matching.noSkillsResult := by
        simp [Matching.calculate_job_match_score, Matching.scoreJob, hj]
      rw [h]
      constructor <;> norm_num [Matching.noSkillsResult]
    · have h : (Matching.calculate_job_match_score (some p) j).match_score
          = pyRound1 (min (Matching.skillMatchPct p j * (7/10)
            + (Matching.expComponent p j : ℚ) + (Matching.locComponent p j : ℚ)) 100) := by
        simp [Matching.calculate_job_match_score, Matching.scoreJob, hj]
      rw [h]
      have hpct := skillMatchPct_nonneg p j
      have h0 : 0 ≤ min (Matching.skillMatchPct p j * (7/10)
          + (Matching.expComponent p j : ℚ) + (Matching.locComponent p j : ℚ)) 100 := by
        apply le_min _ (by norm_num)
        positivity
      have h1 : min (Matching.skillMatchPct p j * (7/10)
          + (Matching.expComponent p j : ℚ) + (Matching.locComponent p j : ℚ)) 100 ≤ 100 :=
        min_le_right _ _
      exact ⟨pyRound1_nonneg _ h0, pyRound1_le_100 _ h1⟩

end SJF

namespace SJF

/-- C1: for every profile with a non-empty stored skill set and every job with
non-empty declared skills, the match score is
min(skill_match_pct * 0.7 + experience_component + location_component, 100)
rounded to one decimal place, with
skill_match_pct = card(profile.skills ∩ job.skills) / card(job.skills) * 100
over case-sensitive skill strings; on the spec example
(profile skills python,sql; job skills python,react,sql; no experience or
location match) the percentage is 200/3 (66.7 to one decimal), the skill_score
is 46.7 and the total is 46.7. -/
theorem C1_score_formula (p : Matching.Profile) (j : Matching.Job)
    (hp : p.skills.toFinset ≠ ∅) (hj : j.skills.toFinset ≠ ∅) :
    (Matching.calculate_job_match_score (some p) j).match_score
      = pyRound1 (min ((((p.skills.toFinset ∩ j.skills.toFinset).card : ℚ)
            / (j.skills.toFinset.card : ℚ) * 100) * (7/10)
          + (Matching.expComponent p j : ℚ) + (Matching.locComponent p j : ℚ)) 100) ∧
    Matching.skillMatchPct Matching.exProfile Matching.exJob = 200/3 ∧
    pyRound1 (Matching.skillMatchPct Matching.exProfile Matching.exJob) = 667/10 ∧
    (Matching.calculate_job_match_score (some Matching.exProfile) Matching.exJob).breakdown
      = some { skill_score := 467/10, experience_score := 0, location_score := 0 } ∧
    (Matching.calculate_job_match_score (some Matching.exProfile) Matching.exJob).match_score
      = 467/10 := by
  have hexne : Matching.exJob.skills.toFinset ≠ ∅ := by decide
  have hexexp : Matching.expComponent Matching.exProfile Matching.exJob = 0 := by decide
  have hexloc : Matching.locComponent Matching.exProfile Matching.exJob = 0 := by decide
  refine ⟨?_, skillMatchPct_ex, ?_, ?_, ?_⟩
  · have hpct : Matching.skillMatchPct p j
        = ((p.skills.toFinset ∩ j.skills.toFinset).card : ℚ)
            / (j.skills.toFinset.card : ℚ) * 100 := by
      simp only [Matching.skillMatchPct, hj, ne_eq, not_false_eq_true, if_true]
    simp only [Matching.calculate_job_match_score, Matching.scoreJob, hj, if_neg,
      reduceIte, hpct]
  · rw [skillMatchPct_ex]
    norm_num [pyRound1, roundHalfEven]
  · simp only [Matching.calculate_job_match_score, Matching.scoreJob, hexne, if_neg,
      reduceIte, skillMatchPct_ex, hexexp, hexloc]
    norm_num [pyRound1, roundHalfEven]
  · simp only [Matching.calculate_job_match_score, Matching.scoreJob, hexne, if_neg,
      reduceIte, skillMatchPct_ex, hexexp, hexloc]
    norm_num [pyRound1, roundHalfEven]

/-- C1 witness: the formula and the example facts instantiated at the spec
example profile and job. -/
theorem C1_score_formula_witness :
    (Matching.calculate_job_match_score (some Matching.exProfile) Matching.exJob).match_score
      = pyRound1 (min ((((Matching.exProfile.skills.toFinset ∩ Matching.exJob.skills.toFinset).card : ℚ)
            / (Matching.exJob.skills.toFinset.card : ℚ) * 100) * (7/10)
          + (Matching.expComponent Matching.exProfile Matching.exJob : ℚ)
          + (Matching.locComponent Matching.exProfile Matching.exJob : ℚ)) 100) ∧
    Matching.skillMatchPct Matching.exProfile Matching.exJob = 200/3 ∧
    pyRound1 (Matching.skillMatchPct Matching.exProfile Matching.exJob) = 667/10 ∧
    (Matching.calculate_job_match_score (some Matching.exProfile) Matching.exJob).breakdown
      = some { skill_score := 467/10, experience_score := 0, location_score := 0 } ∧
    (Matching.calculate_job_match_score (some Matching.exProfile) Matching.exJob).match_score
      = 467/10 :=
  C1_score_formula Matching.exProfile Matching.exJob (by decide) (by decide)

end SJF

namespace SJF

/-- C4 counterexample: for a job with an empty declared skill list the
response carries no missing_skills key at all (modelled as `none`), so the
claimed "empty missing skill set" is not what is returned. -/
theorem C4_counterexample :
    (Matching.calculate_job_match_score (some Matching.c4Profile) Matching.c4Job).missing_skills
      = none ∧
    (Matching.calculate_job_match_score (some Matching.c4Profile) Matching.c4Job).missing_skills
      ≠ some (∅ : Finset String) := by
  have h : Matching.calculate_job_match_score (some Matching.c4Profile) Matching.c4Job
      = Matching.noSkillsResult := by
    simp [Matching.calculate_job_match_score, Matching.scoreJob]
    decide
  rw [h]
  exact ⟨rfl, by simp [Matching.noSkillsResult]⟩

/-- C4 (amended): for every profile and every job whose declared skill set is
empty, the scorer returns the fixed neutral result: score exactly 50, empty
matched skills, and the missing_skills and breakdown keys omitted from the
response; this special case takes precedence over the general formula, so the
division by card(job.skills) is never performed. -/
theorem C4_empty_job_skills (p : Matching.Profile) (j : Matching.Job)
    (hj : j.skills.toFinset = ∅) :
    Matching.calculate_job_match_score (some p) j = Matching.noSkillsResult ∧
    (Matching.calculate_job_match_score (some p) j).match_score = 50 ∧
    (Matching.calculate_job_match_score (some p) j).matched_skills = ∅ ∧
    (Matching.calculate_job_match_score (some p) j).missing_skills = none ∧
    (Matching.calculate_job_match_score (some p) j).breakdown = none := by
  have h : Matching.calculate_job_match_score (some p) j = Matching.noSkillsResult := by
    simp [Matching.calculate_job_match_score, Matching.scoreJob, hj]
  refine ⟨h, ?_, ?_, ?_, ?_⟩ <;> rw [h] <;> rfl

/-- C4 witness: the amended statement at a concrete profile and a job with an
empty skill list. -/
theorem C4_empty_job_skills_witness :
    Matching.calculate_job_match_score (some Matching.c4Profile) Matching.c4Job
      = Matching.noSkillsResult ∧
    (Matching.calculate_job_match_score (some Matching.c4Profile) Matching.c4Job).match_score = 50 ∧
    (Matching.calculate_job_match_score (some Matching.c4Profile) Matching.c4Job).matched_skills = ∅ ∧
    (Matching.calculate_job_match_score (some Matching.c4Profile) Matching.c4Job).missing_skills = none ∧
    (Matching.calculate_job_match_score (some Matching.c4Profile) Matching.c4Job).breakdown = none :=
  C4_empty_job_skills Matching.c4Profile Matching.c4Job (by decide)

/-- C5 counterexample: with profile.experience = "" and
job.experience_level = "" the two strings are case-insensitively equal, yet
the experience component is 0, not 20; and profile.location = "" is a
substring of job.location, yet the location component is 0, not 10 (the code
additionally requires the strings to be non-empty). -/
theorem C5_counterexample :
    pyLower Matching.c5Profile.experience = pyLower Matching.c5Job.experience_level ∧
    Matching.expComponent Matching.c5Profile Matching.c5Job = 0 ∧
    pySubstr (pyLower Matching.c5Profile.location) (pyLower Matching.c5Job.location) = true ∧
    Matching.locComponent Matching.c5Profile Matching.c5Job = 0 ∧
    Matching.c5Job.skills.toFinset ≠ ∅ ∧
    (Matching.calculate_job_match_score (some Matching.c5Profile) Matching.c5Job).breakdown
      = some { skill_score := 70, experience_score := 0, location_score := 0 } := by
  refine ⟨by decide, by decide, by decide, by decide, by decide, ?_⟩
  have hne : Matching.c5Job.skills.toFinset ≠ ∅ := by decide
  have hexp : Matching.expComponent Matching.c5Profile Matching.c5Job = 0 := by decide
  have hloc : Matching.locComponent Matching.c5Profile Matching.c5Job = 0 := by decide
  have hpct : Matching.skillMatchPct Matching.c5Profile Matching.c5Job = 100 := by
    have hc : (Matching.c5Profile.skills.toFinset ∩ Matching.c5Job.skills.toFinset).card = 1 := by
      decide
    have hd : Matching.c5Job.skills.toFinset.card = 1 := by decide
    simp only [Matching.skillMatchPct, hne, ne_eq, not_false_eq_true, if_true, hc, hd]
    norm_num
  simp only [Matching.calculate_job_match_score, Matching.scoreJob, hne, if_neg,
    reduceIte, hpct, hexp, hloc]
  norm_num [pyRound1, roundHalfEven]

/-- C5 (amended): for every profile and every job with non-empty declared
skills, the breakdown reports exactly the two components, where the
experience component is 20 precisely when both lowered strings are non-empty
and equal (0 otherwise), and the location component is 10 precisely when both
lowered strings are non-empty and the lowered profile.location is a substring
of the lowered job.location (0 otherwise); on empty strings the components
are 0 even when the claimed equality or containment holds. -/
theorem C5_components (p : Matching.Profile) (j : Matching.Job)
    (hj : j.skills.toFinset ≠ ∅) :
    (Matching.calculate_job_match_score (some p) j).breakdown
      = some { skill_score := pyRound1 (Matching.skillMatchPct p j * (7/10))
               experience_score := Matching.expComponent p j
               location_score := Matching.locComponent p j } ∧
    (Matching.expComponent p j = 20 ↔
      (pyLower p.experience ≠ "" ∧ pyLower j.experience_level ≠ "" ∧
        pyLower p.experience = pyLower j.experience_level)) ∧
    (Matching.expComponent p j = 0 ↔
      ¬ (pyLower p.experience ≠ "" ∧ pyLower j.experience_level ≠ "" ∧
        pyLower p.experience = pyLower j.experience_level)) ∧
    (Matching.locComponent p j = 10 ↔
      (pyLower p.location ≠ "" ∧ pyLower j.location ≠ "" ∧
        pySubstr (pyLower p.location) (pyLower j.location) = true)) ∧
    (Matching.locComponent p j = 0 ↔
      ¬ (pyLower p.location ≠ "" ∧ pyLower j.location ≠ "" ∧
        pySubstr (pyLower p.location) (pyLower j.location) = true)) := by
  refine ⟨?_, ?_, ?_, ?_, ?_⟩
  · simp only [Matching.calculate_job_match_score, Matching.scoreJob, hj, if_neg, reduceIte]
  · simp only [Matching.expComponent]
    split_ifs with h
    · simpa using h
    · simp [h]
  · simp only [Matching.expComponent]
    split_ifs with h
    · simp [h]
    · simp [h]
  · simp only [Matching.locComponent]
    split_ifs with h
    · simpa using h
    · simp [h]
  · simp only [Matching.locComponent]
    split_ifs with h
    · simp [h]
    · simp [h]

/-- C5 witness: the amended component characterisation instantiated at the
spec example profile and job. -/
theorem C5_components_witness :
    (Matching.calculate_job_match_score (some Matching.exProfile) Matching.exJob).breakdown
      = some { skill_score := pyRound1 (Matching.skillMatchPct Matching.exProfile Matching.exJob * (7/10))
               experience_score := Matching.expComponent Matching.exProfile Matching.exJob
               location_score := Matching.locComponent Matching.exProfile Matching.exJob } ∧
    (Matching.expComponent Matching.exProfile Matching.exJob = 20 ↔
      (pyLower Matching.exProfile.experience ≠ "" ∧
        pyLower Matching.exJob.experience_level ≠ "" ∧
        pyLower Matching.exProfile.experience = pyLower Matching.exJob.experience_level)) ∧
    (Matching.expComponent Matching.exProfile Matching.exJob = 0 ↔
      ¬ (pyLower Matching.exProfile.experience ≠ "" ∧
        pyLower Matching.exJob.experience_level ≠ "" ∧
        pyLower Matching.exProfile.experience = pyLower Matching.exJob.experience_level)) ∧
    (Matching.locComponent Matching.exProfile Matching.exJob = 10 ↔
      (pyLower Matching.exProfile.location ≠ "" ∧ pyLower Matching.exJob.location ≠ "" ∧
        pySubstr (pyLower Matching.exProfile.location) (pyLower Matching.exJob.location) = true)) ∧
    (Matching.locComponent Matching.exProfile Matching.exJob = 0 ↔
      ¬ (pyLower Matching.exProfile.location ≠ "" ∧ pyLower Matching.exJob.location ≠ "" ∧
        pySubstr (pyLower Matching.exProfile.location) (pyLower Matching.exJob.location) = true)) :=
  C5_components Matching.exProfile Matching.exJob (by decide)

end SJF

namespace SJF

/- ### Helper lemmas about UTF-8 truncation -/

theorem utf8EncodeChar_length_pos (c : Char) : 0 < (Security.utf8EncodeChar c).length := by
  unfold Security.utf8EncodeChar
  split_ifs <;> simp

theorem utf8Bytes_append (a b : List Char) :
    Security.utf8Bytes (a ++ b) = Security.utf8Bytes a ++ Security.utf8Bytes b := by
  simp [Security.utf8Bytes]

theorem le_length_utf8Bytes (s : List Char) : s.length ≤ (Security.utf8Bytes s).length := by
  induction s with
  | nil => simp [Security.utf8Bytes]
  | cons c t ih =>
    have hc := utf8EncodeChar_length_pos c
    simp only [Security.utf8Bytes, List.map_cons, List.flatten_cons, List.length_append,
      List.length_cons] at *
    omega

/- The key bcrypt actually derives from a password that went through the
source's truncation step is exactly the first 72 bytes of the password's
UTF-8 encoding: the character slice `p[:72]` either is the identity (at most
72 bytes) or keeps at least 72 bytes of the encoding, and bcrypt itself stops
at 72 bytes. -/
theorem bcryptKey_pyTruncate72 (p : List Char) :
    Security.bcryptKey (Security.pyTruncate72 p) = (Security.utf8Bytes p).take 72 := by
  unfold Security.pyTruncate72
  split_ifs with h
  · by_cases hp : p.length ≤ 72
    · rw [List.take_of_length_le hp]; rfl
    · push_neg at hp
      unfold Security.bcryptKey
      have h1 : (p.take 72).length = 72 := by
        rw [List.length_take]; omega
      have h2 := le_length_utf8Bytes (p.take 72)
      conv_rhs => rw [← List.take_append_drop 72 p]
      rw [utf8Bytes_append, List.take_append_eq_append_take]
      have hz : 72 - (Security.utf8Bytes (p.take 72)).length = 0 := by omega
      rw [hz, List.take_zero, List.append_nil]
  · rfl

/-- C2: the effective hashing input is the password truncated to its first
72 UTF-8 bytes, so verify(p, hash(p)) succeeds for every password (in
particular for passwords longer than 72 bytes), and any password and its
72-byte truncation hash-verify interchangeably. -/
theorem C2_truncation_contract (salt : ℕ) (p q : List Char)
    (hq : Security.utf8Bytes q = (Security.utf8Bytes p).take 72) :
    (Security.get_password_hash salt p).key = (Security.utf8Bytes p).take 72 ∧
    Security.verify_password p (Security.get_password_hash salt p) = true ∧
    Security.verify_password q (Security.get_password_hash salt p) = true ∧
    Security.verify_password p (Security.get_password_hash salt q) = true := by
  have hp := bcryptKey_pyTruncate72 p
  have hq2 := bcryptKey_pyTruncate72 q
  refine ⟨?_, ?_, ?_, ?_⟩
  · simpa [Security.get_password_hash, Security.bcryptHash] using hp
  · simp [Security.verify_password, Security.get_password_hash, Security.bcryptHash,
      Security.bcryptVerify]
  · simp [Security.verify_password, Security.get_password_hash, Security.bcryptHash,
      Security.bcryptVerify, hp, hq2, hq, List.take_take]
  · simp [Security.verify_password, Security.get_password_hash, Security.bcryptHash,
      Security.bcryptVerify, hp, hq2, hq, List.take_take]

/-- C2 witness: a 100-byte password (100 ASCII characters) and its 72-byte
truncation hash-verify interchangeably, and both hash to the 72-byte key. -/
theorem C2_truncation_contract_witness :
    (Security.get_password_hash 0 (List.replicate 100 'a')).key
      = (Security.utf8Bytes (List.replicate 100 'a')).take 72 ∧
    Security.verify_password (List.replicate 100 'a')
      (Security.get_password_hash 0 (List.replicate 100 'a')) = true ∧
    Security.verify_password (List.replicate 72 'a')
      (Security.get_password_hash 0 (List.replicate 100 'a')) = true ∧
    Security.verify_password (List.replicate 100 'a')
      (Security.get_password_hash 0 (List.replicate 72 'a')) = true :=
  C2_truncation_contract 0 (List.replicate 100 'a') (List.replicate 72 'a') (by decide)

end SJF

namespace SJF

/-- C3: for every valid claim set, verifying a token issued with
extended=false returns the same subject and role with exp - iat equal to the
configured default TTL (ACCESS_TOKEN_EXPIRE_MINUTES, in seconds); with
extended=true, exp - iat is exactly 7 days; and the issued claim set's kind
defaults to "access" when unspecified. -/
theorem C3_issue_verify_roundtrip (ttlMinutes : ℕ) (secret : String) (now : ℤ)
    (data : Token.TokenData) (httl : 0 < ttlMinutes) :
    Token.decode_token secret now (Token.create_access_token ttlMinutes secret now data false)
      = some (Token.create_access_token ttlMinutes secret now data false).payload ∧
    (Token.create_access_token ttlMinutes secret now data false).payload.sub = data.sub ∧
    (Token.create_access_token ttlMinutes secret now data false).payload.role = data.role ∧
    (Token.create_access_token ttlMinutes secret now data false).payload.exp
      - (Token.create_access_token ttlMinutes secret now data false).payload.iat
      = ttlMinutes * 60 ∧
    Token.decode_token secret now (Token.create_access_token ttlMinutes secret now data true)
      = some (Token.create_access_token ttlMinutes secret now data true).payload ∧
    (Token.create_access_token ttlMinutes secret now data true).payload.sub = data.sub ∧
    (Token.create_access_token ttlMinutes secret now data true).payload.role = data.role ∧
    (Token.create_access_token ttlMinutes secret now data true).payload.exp
      - (Token.create_access_token ttlMinutes secret now data true).payload.iat
      = 7 * 86400 ∧
    (data.type = none →
      (Token.create_access_token ttlMinutes secret now data false).payload.type = "access") := by
  refine ⟨?_, rfl, rfl, ?_, ?_, rfl, rfl, ?_, ?_⟩
  · simp only [Token.decode_token, Token.create_access_token, if_false, Bool.false_eq_true,
      reduceIte]
    rw [if_pos]
    exact ⟨trivial, by omega⟩
  · simp only [Token.create_access_token, Bool.false_eq_true, reduceIte]
    ring
  · simp only [Token.decode_token, Token.create_access_token, reduceIte]
    rw [if_pos]
    exact ⟨trivial, by omega⟩
  · simp only [Token.create_access_token, reduceIte]
    ring
  · intro htype
    simp [Token.create_access_token, htype]

/-- C3 witness: the round trip at a concrete claim set with no kind, a
concrete secret, time 0 and the default TTL of 1440 minutes. -/
theorem C3_issue_verify_roundtrip_witness :
    Token.decode_token "secret" 0
        (Token.create_access_token 1440 "secret" 0
          { sub := "alice@mail.com", role := some "admin", type := none } false)
      = some (Token.create_access_token 1440 "secret" 0
          { sub := "alice@mail.com", role := some "admin", type := none } false).payload ∧
    (Token.create_access_token 1440 "secret" 0
        { sub := "alice@mail.com", role := some "admin", type := none } false).payload.sub
      = ({ sub := "alice@mail.com", role := some "admin", type := none } : Token.TokenData).sub ∧
    (Token.create_access_token 1440 "secret" 0
        { sub := "alice@mail.com", role := some "admin", type := none } false).payload.role
      = ({ sub := "alice@mail.com", role := some "admin", type := none } : Token.TokenData).role ∧
    (Token.create_access_token 1440 "secret" 0
        { sub := "alice@mail.com", role := some "admin", type := none } false).payload.exp
      - (Token.create_access_token 1440 "secret" 0
          { sub := "alice@mail.com", role := some "admin", type := none } false).payload.iat
      = 1440 * 60 ∧
    Token.decode_token "secret" 0
        (Token.create_access_token 1440 "secret" 0
          { sub := "alice@mail.com", role := some "admin", type := none } true)
      = some (Token.create_access_token 1440 "secret" 0
          { sub := "alice@mail.com", role := some "admin", type := none } true).payload ∧
    (Token.create_access_token 1440 "secret" 0
        { sub := "alice@mail.com", role := some "admin", type := none } true).payload.sub
      = ({ sub := "alice@mail.com", role := some "admin", type := none } : Token.TokenData).sub ∧
    (Token.create_access_token 1440 "secret" 0
        { sub := "alice@mail.com", role := some "admin", type := none } true).payload.role
      = ({ sub := "alice@mail.com", role := some "admin", type := none } : Token.TokenData).role ∧
    (Token.create_access_token 1440 "secret" 0
        { sub := "alice@mail.com", role := some "admin", type := none } true).payload.exp
      - (Token.create_access_token 1440 "secret" 0
          { sub := "alice@mail.com", role := some "admin", type := none } true).payload.iat
      = 7 * 86400 ∧
    (({ sub := "alice@mail.com", role := some "admin", type := none } : Token.TokenData).type = none →
      (Token.create_access_token 1440 "secret" 0
          { sub := "alice@mail.com", role := some "admin", type := none } false).payload.type
        = "access") :=
  C3_issue_verify_roundtrip 1440 "secret" 0
    { sub := "alice@mail.com", role := some "admin", type := none } (by norm_num)

end SJF

namespace SJF

/-- C7: for every registration request with is_admin set whose supplied admin
code differs from the configured admin registration code, registration is
rejected with a 400 invalid-input error and the users collection is left
unchanged by the failed request. -/
theorem C7_admin_code_rejected (cfg : Auth.Config) (db : List Auth.UserDoc)
    (user_data : Auth.UserRegister) (now : ℤ) (salt newId : ℕ)
    (hadm : user_data.is_admin = true)
    (hcode : user_data.admin_code ≠ some cfg.ADMIN_REGISTRATION_CODE) :
    errStatus (Auth.register cfg db user_data now salt newId).1 = some 400 ∧
    (Auth.register cfg db user_data now salt newId).2 = db := by
  by_cases hex : (db.find? (fun u => u.email == user_data.email)).isSome
  · simp [Auth.register, hex, errStatus]
  · simp only [Auth.register, hex, Bool.false_eq_true, reduceIte]
    rw [if_pos ⟨by simp [hadm], hcode⟩]
    exact ⟨rfl, rfl⟩

/-- C7 witness: an admin registration with a wrong code against a concrete
one-user store is rejected with status 400 and leaves the store unchanged. -/
theorem C7_admin_code_rejected_witness :
    errStatus (Auth.register
        { SECRET_KEY := "s", ACCESS_TOKEN_EXPIRE_MINUTES := 1440,
          ADMIN_REGISTRATION_CODE := "ADMIN2024" }
        [{ id := 1, email := "bob@mail.com", full_name := "Bob", password_hash := ⟨0, []⟩,
           role := "job_seeker", is_active := true, is_verified := false, has_cv := false,
           profile_completed := false, created_at := 0, updated_at := 0, last_login := none }]
        { full_name := "Eve", email := "eve@mail.com", password := ['p','w','1','2','3','4'],
          is_admin := true, admin_code := some "WRONG" } 0 0 2).1 = some 400 ∧
    (Auth.register
        { SECRET_KEY := "s", ACCESS_TOKEN_EXPIRE_MINUTES := 1440,
          ADMIN_REGISTRATION_CODE := "ADMIN2024" }
        [{ id := 1, email := "bob@mail.com", full_name := "Bob", password_hash := ⟨0, []⟩,
           role := "job_seeker", is_active := true, is_verified := false, has_cv := false,
           profile_completed := false, created_at := 0, updated_at := 0, last_login := none }]
        { full_name := "Eve", email := "eve@mail.com", password := ['p','w','1','2','3','4'],
          is_admin := true, admin_code := some "WRONG" } 0 0 2).2
      = [{ id := 1, email := "bob@mail.com", full_name := "Bob", password_hash := ⟨0, []⟩,
           role := "job_seeker", is_active := true, is_verified := false, has_cv := false,
           profile_completed := false, created_at := 0, updated_at := 0, last_login := none }] :=
  C7_admin_code_rejected
    { SECRET_KEY := "s", ACCESS_TOKEN_EXPIRE_MINUTES := 1440,
      ADMIN_REGISTRATION_CODE := "ADMIN2024" }
    [{ id := 1, email := "bob@mail.com", full_name := "Bob", password_hash := ⟨0, []⟩,
       role := "job_seeker", is_active := true, is_verified := false, has_cv := false,
       profile_completed := false, created_at := 0, updated_at := 0, last_login := none }]
    { full_name := "Eve", email := "eve@mail.com", password := ['p','w','1','2','3','4'],
      is_admin := true, admin_code := some "WRONG" } 0 0 2 rfl (by decide)

/-- C8: the forgot-password operation returns the same generic success
response for every request, whatever the users store contains: for any two
store states (in particular two differing only in whether the email is
registered) the HTTP responses are identical, and equal to the fixed generic
message echoing the supplied email. -/
theorem C8_forgot_password_generic (cfg : Auth.Config) (db1 db2 : List Auth.UserDoc)
    (email : String) (now1 now2 : ℤ) :
    (Auth.forgot_password cfg db1 email now1).1 = (Auth.forgot_password cfg db2 email now2).1 ∧
    (Auth.forgot_password cfg db1 email now1).1
      = { message := "If your email is registered, you will receive a reset link"
          email := email } := by
  unfold Auth.forgot_password
  constructor
  · split <;> split <;> rfl
  · split <;> rfl

end SJF

namespace SJF

/-- C6: for an authenticated admin/moderator caller and an existing job whose
posted_by differs from the caller's id, both edit and delete reject with the
same 404 not-found outcome as for an absent job (the response does not reveal
whether the job exists), and the jobs collection is left unchanged. -/
theorem C6_ownership_masked_as_not_found (db : List Jobs.JobDoc) (adminId : String)
    (jobId : ℕ) (upd : Jobs.JobUpdate) (now : ℤ) (job : Jobs.JobDoc)
    (hmem : job ∈ db) (hid : job.id = jobId)
    (hnotown : ∀ j ∈ db, j.id = jobId → j.posted_by ≠ adminId) :
    Jobs.update_job db adminId jobId upd now
      = (Except.error { status := 404, detail := "Job not found or you don\u0027t have permission to edit this job" }, db) ∧
    Jobs.delete_job db adminId jobId
      = (Except.error { status := 404, detail := "Job not found or you don\u0027t have permission to delete this job" }, db) ∧
    (∀ db2 : List Jobs.JobDoc, (∀ j ∈ db2, j.id ≠ jobId) →
      Jobs.update_job db2 adminId jobId upd now
        = (Except.error { status := 404, detail := "Job not found or you don\u0027t have permission to edit this job" }, db2) ∧
      Jobs.delete_job db2 adminId jobId
        = (Except.error { status := 404, detail := "Job not found or you don\u0027t have permission to delete this job" }, db2)) := by
  have hnone : db.find? (fun j => j.id == jobId && j.posted_by == adminId) = none := by
    rw [List.find?_eq_none]
    intro x hx
    simp only [Bool.and_eq_true, beq_iff_eq, not_and]
    exact hnotown x hx
  refine ⟨?_, ?_, ?_⟩
  · unfold Jobs.update_job
    rw [hnone]
  · unfold Jobs.delete_job
    rw [hnone]
  · intro db2 h2
    have hnone2 : db2.find? (fun j => j.id == jobId && j.posted_by == adminId) = none := by
      rw [List.find?_eq_none]
      intro x hx
      simp only [Bool.and_eq_true, beq_iff_eq, not_and]
      intro hid2
      exact absurd hid2 (h2 x hx)
    constructor
    · unfold Jobs.update_job
      rw [hnone2]
    · unfold Jobs.delete_job
      rw [hnone2]

end SJF

namespace SJF

/-- C6 witness: an admin with id adminB editing or deleting the job posted by
adminA gets the same 404 outcome as for a missing job, with the store
untouched. -/
theorem C6_ownership_masked_witness :
    Jobs.update_job [Jobs.sampleJob] "adminB" 1 Jobs.emptyUpdate 0
      = (Except.error { status := 404, detail := "Job not found or you don't have permission to edit this job" }, [Jobs.sampleJob]) ∧
    Jobs.delete_job [Jobs.sampleJob] "adminB" 1
      = (Except.error { status := 404, detail := "Job not found or you don't have permission to delete this job" }, [Jobs.sampleJob]) :=
  ⟨(C6_ownership_masked_as_not_found [Jobs.sampleJob] "adminB" 1 Jobs.emptyUpdate 0
      Jobs.sampleJob (by decide) (by decide) (by decide)).1,
   (C6_ownership_masked_as_not_found [Jobs.sampleJob] "adminB" 1 Jobs.emptyUpdate 0
      Jobs.sampleJob (by decide) (by decide) (by decide)).2.1⟩

/-- C10: the password-reset operation accepts any token whose type claim is
"password_reset" or "access"; in particular an ordinary login access token
(issued with no explicit kind, hence kind "access") for a registered user is
sufficient to reset that user's password, exactly as a forgot-password reset
token is. -/
theorem C10_reset_accepts_access_token (cfg : Auth.Config) (db : List Auth.UserDoc)
    (user : Auth.UserDoc) (role : Option String) (newpw : List Char) (now : ℤ) (salt : ℕ)
    (httl : 0 < cfg.ACCESS_TOKEN_EXPIRE_MINUTES)
    (hemail : user.email ≠ "")
    (hfind : db.find? (fun u => u.email == user.email) = some user) :
    (Token.create_access_token cfg.ACCESS_TOKEN_EXPIRE_MINUTES cfg.SECRET_KEY now
        { sub := user.email, role := role, type := none } false).payload.type = "access" ∧
    Auth.reset_password cfg db
        { token := Token.create_access_token cfg.ACCESS_TOKEN_EXPIRE_MINUTES cfg.SECRET_KEY now
            { sub := user.email, role := role, type := none } false
          new_password := newpw } now salt
      = (Except.ok "Password reset successfully",
          db.map (fun u => if u.id = user.id then
            { u with password_hash := Security.get_password_hash salt newpw, updated_at := now }
            else u)) ∧
    Auth.reset_password cfg db
        { token := Token.create_access_token cfg.ACCESS_TOKEN_EXPIRE_MINUTES cfg.SECRET_KEY now
            { sub := user.email, role := none, type := some "password_reset" } false
          new_password := newpw } now salt
      = (Except.ok "Password reset successfully",
          db.map (fun u => if u.id = user.id then
            { u with password_hash := Security.get_password_hash salt newpw, updated_at := now }
            else u)) := by
  have hlt : now < now + (cfg.ACCESS_TOKEN_EXPIRE_MINUTES : ℤ) * 60 := by
    have h0 : (0 : ℤ) < (cfg.ACCESS_TOKEN_EXPIRE_MINUTES : ℤ) := by exact_mod_cast httl
    linarith
  refine ⟨rfl, ?_, ?_⟩
  · have hdec : Token.decode_token cfg.SECRET_KEY now
        (Token.create_access_token cfg.ACCESS_TOKEN_EXPIRE_MINUTES cfg.SECRET_KEY now
          { sub := user.email, role := role, type := none } false)
        = some { sub := user.email, role := role,
                 exp := now + (cfg.ACCESS_TOKEN_EXPIRE_MINUTES : ℤ) * 60, iat := now,
                 type := "access" } := by
      simp only [Token.decode_token, Token.create_access_token, Bool.false_eq_true, reduceIte]
      rw [if_pos ⟨trivial, hlt⟩]
      rfl
    unfold Auth.reset_password
    rw [hdec]
    simp only [hemail, reduceIte, String.reduceEq, or_true, not_true_eq_false, if_false, hfind]
  · have hdec : Token.decode_token cfg.SECRET_KEY now
        (Token.create_access_token cfg.ACCESS_TOKEN_EXPIRE_MINUTES cfg.SECRET_KEY now
          { sub := user.email, role := none, type := some "password_reset" } false)
        = some { sub := user.email, role := none,
                 exp := now + (cfg.ACCESS_TOKEN_EXPIRE_MINUTES : ℤ) * 60, iat := now,
                 type := "password_reset" } := by
      simp only [Token.decode_token, Token.create_access_token, Bool.false_eq_true, reduceIte]
      rw [if_pos ⟨trivial, hlt⟩]
      rfl
    unfold Auth.reset_password
    rw [hdec]
    simp only [hemail, reduceIte, String.reduceEq, true_or, not_true_eq_false, if_false, hfind]

end SJF

namespace SJF

/-- C10 witness: against a one-user store, both an ordinary login access
token and a forgot-password reset token for that user reset the password. -/
theorem C10_reset_accepts_access_token_witness :
    (Token.create_access_token 1440 "s" 0
        { sub := Auth.sampleUser.email, role := some "job_seeker", type := none } false).payload.type
      = "access" ∧
    Auth.reset_password
        { SECRET_KEY := "s", ACCESS_TOKEN_EXPIRE_MINUTES := 1440,
          ADMIN_REGISTRATION_CODE := "ADMIN2024" }
        [Auth.sampleUser]
        { token := Token.create_access_token 1440 "s" 0
            { sub := Auth.sampleUser.email, role := some "job_seeker", type := none } false
          new_password := ['n','e','w','p','w','1'] } 0 7
      = (Except.ok "Password reset successfully",
          [Auth.sampleUser].map (fun u => if u.id = Auth.sampleUser.id then
            { u with password_hash := Security.get_password_hash 7 ['n','e','w','p','w','1'],
                     updated_at := 0 }
            else u)) ∧
    Auth.reset_password
        { SECRET_KEY := "s", ACCESS_TOKEN_EXPIRE_MINUTES := 1440,
          ADMIN_REGISTRATION_CODE := "ADMIN2024" }
        [Auth.sampleUser]
        { token := Token.create_access_token 1440 "s" 0
            { sub := Auth.sampleUser.email, role := none, type := some "password_reset" } false
          new_password := ['n','e','w','p','w','1'] } 0 7
      = (Except.ok "Password reset successfully",
          [Auth.sampleUser].map (fun u => if u.id = Auth.sampleUser.id then
            { u with password_hash := Security.get_password_hash 7 ['n','e','w','p','w','1'],
                     updated_at := 0 }
            else u)) :=
  C10_reset_accepts_access_token
    { SECRET_KEY := "s", ACCESS_TOKEN_EXPIRE_MINUTES := 1440,
      ADMIN_REGISTRATION_CODE := "ADMIN2024" }
    [Auth.sampleUser] Auth.sampleUser (some "job_seeker") ['n','e','w','p','w','1'] 0 7
    (by norm_num) (by decide) (by decide)

end SJF
